import Mathlib

/-!
Verification development for the travel-concierge repository
(`apps/concierge-svc` and `apps/deals-worker`).

Monetary values and scores (Python floats) are modelled as rationals `ℚ`;
UTC instants are modelled as integer epoch seconds `ℤ`.  Python's
`round(x, 2)` and the `"{:.2f}"` format specifier round half-to-even at two
decimal places; `roundHalfEven`/`round2` below model that rule exactly on ℚ.
-/

/-- Round to the nearest integer, ties to even (Python `round`/banker's
rounding), on rationals. -/
def roundHalfEven (q : ℚ) : ℤ :=
  if q - ⌊q⌋ < 1/2 then ⌊q⌋
  else if 1/2 < q - ⌊q⌋ then ⌊q⌋ + 1
  else if ⌊q⌋ % 2 = 0 then ⌊q⌋ else ⌊q⌋ + 1

/-- Python `round(x, 2)`: round to two decimal places, ties to even. -/
def round2 (q : ℚ) : ℚ := (roundHalfEven (q * 100) : ℚ) / 100

theorem roundHalfEven_eq_floor_or (q : ℚ) :
    roundHalfEven q = ⌊q⌋ ∨ roundHalfEven q = ⌊q⌋ + 1 := by
  unfold roundHalfEven
  split_ifs <;> simp

theorem le_roundHalfEven (c : ℤ) (q : ℚ) (h : (c : ℚ) ≤ q) :
    c ≤ roundHalfEven q := by
  rcases roundHalfEven_eq_floor_or q with h1 | h1 <;> rw [h1]
  · exact Int.le_floor.mpr h
  · exact le_trans (Int.le_floor.mpr h) (by omega)

theorem roundHalfEven_le (q : ℚ) (c : ℤ) (h : q ≤ (c : ℚ)) :
    roundHalfEven q ≤ c := by
  have hf : ⌊q⌋ ≤ c := by
    have h2 := Int.floor_le_floor h
    rwa [Int.floor_intCast] at h2
  have hkey : ¬(q - ⌊q⌋ < 1/2) → ⌊q⌋ + 1 ≤ c := by
    intro hfr
    rcases lt_or_eq_of_le hf with h1 | h1
    · omega
    · exfalso
      apply hfr
      have : q - (⌊q⌋ : ℚ) ≤ 0 := by
        rw [h1]; push_cast; linarith
      linarith
  unfold roundHalfEven
  split_ifs with h1 h2 h3
  · exact hf
  · exact hkey h1
  · exact hf
  · exact hkey h1

theorem abs_roundHalfEven_sub_le (q : ℚ) : |(roundHalfEven q : ℚ) - q| ≤ 1/2 := by
  have h0 : (⌊q⌋ : ℚ) ≤ q := Int.floor_le q
  have h1 : q < ⌊q⌋ + 1 := Int.lt_floor_add_one q
  unfold roundHalfEven
  split_ifs with ha hb hc <;> rw [abs_le] <;> push_cast <;> constructor <;> linarith

theorem round2_nonneg (q : ℚ) (h : 0 ≤ q) : 0 ≤ round2 q := by
  unfold round2
  have h2 : (0 : ℤ) ≤ roundHalfEven (q * 100) :=
    le_roundHalfEven 0 (q * 100) (by push_cast; linarith)
  have h3 : (0 : ℚ) ≤ (roundHalfEven (q * 100) : ℚ) := by exact_mod_cast h2
  linarith

theorem round2_le (q : ℚ) (c : ℤ) (h : q ≤ (c : ℚ)) : round2 q ≤ (c : ℚ) := by
  unfold round2
  have h2 : roundHalfEven (q * 100) ≤ c * 100 :=
    roundHalfEven_le _ _ (by push_cast; linarith)
  have h3 : (roundHalfEven (q * 100) : ℚ) ≤ ((c * 100 : ℤ) : ℚ) := by exact_mod_cast h2
  rw [div_le_iff (by norm_num : (0:ℚ) < 100)]
  push_cast at h3 ⊢
  linarith

theorem abs_round2_sub_le (q : ℚ) : |round2 q - q| ≤ 1/200 := by
  unfold round2
  have h := abs_roundHalfEven_sub_le (q * 100)
  have heq : (roundHalfEven (q * 100) : ℚ) / 100 - q
      = ((roundHalfEven (q * 100) : ℚ) - q * 100) / 100 := by ring
  rw [heq, abs_div]
  rw [abs_of_pos (by norm_num : (0:ℚ) < 100)]
  rw [div_le_iff (by norm_num : (0:ℚ) < 100)]
  linarith

/-- ASCII lower-casing of a character (models Python `str.lower()` on the
ASCII strings appearing in deal summaries and hotel names). -/
def lowerChar (c : Char) : Char :=
  if 'A' ≤ c ∧ c ≤ 'Z' then Char.ofNat (c.toNat + 32) else c

/-- ASCII lower-casing of a string. -/
def lowerString (s : String) : String := ⟨s.data.map lowerChar⟩

/-- Helper for the Python substring test `needle in hay`. -/
def strContainsAux (needle : List Char) : List Char → Bool
  | [] => needle.isEmpty
  | c :: t => needle.isPrefixOf (c :: t) || strContainsAux needle t

/-- Python substring test `needle in hay` on strings. -/
def strContains (hay needle : String) : Bool := strContainsAux needle.data hay.data

/-- Two-decimal-digit rendering of a natural number below 100. -/
def twoDigits (n : ℕ) : String :=
  if n < 10 then "0" ++ toString n else toString n

/-- Python `f"{q:.2f}"`: fixed two-decimal rendering of a rational. -/
def formatDollar2 (q : ℚ) : String :=
  let n := roundHalfEven (q * 100)
  let sign := if n < 0 then "-" else ""
  let m := n.natAbs
  sign ++ toString (m / 100) ++ "." ++ twoDigits (m % 100)

/-!
## Deals worker (`apps/deals-worker/src/index.py`)

`calculate_deal_score` (lines 244-290) and `tag_deals` (lines 292-341).
The `np.random.uniform(0, 20)` popularity draw is modelled as an explicit
parameter `popularityBoost`; the wall clock `datetime.now()` as a parameter
`now` (epoch seconds).
-/

inductive DealType
  | flight
  | hotel
  | car
deriving DecidableEq

/-- The fields of a normalized deal dict that `calculate_deal_score` and
`tag_deals` read (`discount_percentage`, `valid_until`, `type`,
`raw_data['available_seats']`, `raw_data['changeable']`). -/
structure WDeal where
  dealType : DealType
  discountPercentage : ℚ
  validUntil : ℤ
  availableSeats : ℤ
  changeable : Bool
deriving DecidableEq

/-- Hours until expiry: `(valid_until - now).total_seconds() / 3600`. -/
def hoursUntil (now validUntil : ℤ) : ℚ := ((validUntil - now : ℤ) : ℚ) / 3600

/-- Price-drop factor of `calculate_deal_score` (index.py lines 248-257). -/
def discountFactor (discount : ℚ) : ℚ :=
  if 50 < discount then 40
  else if 30 < discount then 30
  else if 20 < discount then 20
  else discount * (1/2)

/-- Timing factor of `calculate_deal_score` (index.py lines 259-271). -/
def timingFactor (h : ℚ) : ℚ :=
  if h < 24 then 20
  else if h < 72 then 15
  else if h < 168 then 10
  else 5

/-- Availability factor of `calculate_deal_score` (index.py lines 273-283):
flights are tiered by seat count, hotels get a constant 15, cars nothing. -/
def availabilityFactor (t : DealType) (seats : ℤ) : ℚ :=
  match t with
  | .flight => if 50 < seats then 15 else if 20 < seats then 10 else 5
  | .hotel => 15
  | .car => 0

/-- `calculate_deal_score` (index.py lines 244-290): sum the four factors and
round to two decimals. -/
def calculateDealScore (d : WDeal) (now : ℤ) (popularityBoost : ℚ) : ℚ :=
  round2 (discountFactor d.discountPercentage
    + timingFactor (hoursUntil now d.validUntil)
    + availabilityFactor d.dealType d.availableSeats
    + popularityBoost)

/-- Tag set attached by `tag_deals` (index.py lines 292-341), in append
order: price tags, time tags, type tags, quality tags. -/
def dealTags (d : WDeal) (now : ℤ) (aiScore : ℚ) : List String :=
  ((if 50 < d.discountPercentage then ["flash_deal"] else [])
      ++ (if d.discountPercentage < 15 then ["minor_discount"] else []))
    ++ (if hoursUntil now d.validUntil < 24 then ["expires_soon"]
        else if hoursUntil now d.validUntil < 168 then ["limited_time"] else [])
    ++ (match d.dealType with
        | .flight => if hoursUntil now d.validUntil < 48
            then ["last_minute"] else ["advance_booking"]
        | .hotel => ["weekend_getaway"]
        | .car => [])
    ++ (if 80 < aiScore then ["top_pick"]
        else if 60 < aiScore then ["good_value"] else [])

/-- C7: for every deal emitted by the tagging stage, discount > 50 implies
`flash_deal` is tagged, expiry less than 24 hours away implies
`expires_soon`, ai_score > 80 implies `top_pick`, and 60 < ai_score ≤ 80
implies `good_value`. -/
theorem tag_inclusion_laws (d : WDeal) (now : ℤ) (aiScore : ℚ) :
    (50 < d.discountPercentage → "flash_deal" ∈ dealTags d now aiScore)
    ∧ (hoursUntil now d.validUntil < 24 → "expires_soon" ∈ dealTags d now aiScore)
    ∧ (80 < aiScore → "top_pick" ∈ dealTags d now aiScore)
    ∧ (60 < aiScore ∧ aiScore ≤ 80 → "good_value" ∈ dealTags d now aiScore) := by
  refine ⟨?_, ?_, ?_, ?_⟩ <;> intro h
  · simp [dealTags, h]
  · simp [dealTags, h]
  · simp [dealTags, h]
  · have h3 : ¬(80 < aiScore) := by linarith [h.2]
    simp [dealTags, h.1, h3]

/-- Witness for C7 at two concrete deals: a flight deal with 60% discount
expiring in one hour scored 85 collects `flash_deal`, `expires_soon` and
`top_pick`; the same deal scored 70 collects `good_value`. -/
theorem tag_inclusion_laws_witness :
    ("flash_deal" ∈ dealTags ⟨.flight, 60, 3600, 30, false⟩ 0 85
      ∧ "expires_soon" ∈ dealTags ⟨.flight, 60, 3600, 30, false⟩ 0 85
      ∧ "top_pick" ∈ dealTags ⟨.flight, 60, 3600, 30, false⟩ 0 85)
    ∧ "good_value" ∈ dealTags ⟨.flight, 60, 3600, 30, false⟩ 0 70 := by
  constructor
  · have h := tag_inclusion_laws ⟨.flight, 60, 3600, 30, false⟩ 0 85
    exact ⟨h.1 (by norm_num), h.2.1 (by norm_num [hoursUntil]), h.2.2.1 (by norm_num)⟩
  · exact (tag_inclusion_laws ⟨.flight, 60, 3600, 30, false⟩ 0 70).2.2.2
      ⟨by norm_num, by norm_num⟩

theorem discountFactor_bounds (discount : ℚ) (h : 0 ≤ discount) :
    0 ≤ discountFactor discount ∧ discountFactor discount ≤ 40 := by
  unfold discountFactor
  split_ifs <;> constructor <;> linarith

theorem timingFactor_bounds (h : ℚ) :
    5 ≤ timingFactor h ∧ timingFactor h ≤ 20 := by
  unfold timingFactor
  split_ifs <;> constructor <;> norm_num

theorem availabilityFactor_bounds (t : DealType) (seats : ℤ) :
    0 ≤ availabilityFactor t seats ∧ availabilityFactor t seats ≤ 15 := by
  unfold availabilityFactor
  cases t <;> simp <;> split_ifs <;> norm_num

/-- C8: for a normalized deal with non-negative discount and a popularity
draw in [0, 20], `calculate_deal_score` stays in [0, 100], with the
discount component at most 40, the urgency component at most 20, the
availability component at most 15 and the popularity component at most
20. -/
theorem deal_score_bounds (d : WDeal) (now : ℤ) (pop : ℚ)
    (hd : 0 ≤ d.discountPercentage) (hp0 : 0 ≤ pop) (hp1 : pop ≤ 20) :
    (0 ≤ calculateDealScore d now pop ∧ calculateDealScore d now pop ≤ 100)
    ∧ discountFactor d.discountPercentage ≤ 40
    ∧ timingFactor (hoursUntil now d.validUntil) ≤ 20
    ∧ availabilityFactor d.dealType d.availableSeats ≤ 15
    ∧ pop ≤ 20 := by
  obtain ⟨hd0, hd1⟩ := discountFactor_bounds d.discountPercentage hd
  obtain ⟨ht0, ht1⟩ := timingFactor_bounds (hoursUntil now d.validUntil)
  obtain ⟨ha0, ha1⟩ := availabilityFactor_bounds d.dealType d.availableSeats
  refine ⟨⟨?_, ?_⟩, hd1, ht1, ha1, hp1⟩
  · exact round2_nonneg _ (by linarith)
  · have := round2_le (discountFactor d.discountPercentage
      + timingFactor (hoursUntil now d.validUntil)
      + availabilityFactor d.dealType d.availableSeats
      + pop) 100 (by push_cast; linarith)
    exact_mod_cast this

/-- Witness for C8: the bounds evaluated at a concrete flight deal with 35%
discount, expiring in 10 hours, 30 seats left and popularity draw 10. -/
theorem deal_score_bounds_witness :
    (0 ≤ calculateDealScore ⟨.flight, 35, 36000, 30, false⟩ 0 10
      ∧ calculateDealScore ⟨.flight, 35, 36000, 30, false⟩ 0 10 ≤ 100)
    ∧ discountFactor (35 : ℚ) ≤ 40
    ∧ timingFactor (hoursUntil 0 36000) ≤ 20
    ∧ availabilityFactor .flight 30 ≤ 15
    ∧ (10 : ℚ) ≤ 20 :=
  deal_score_bounds ⟨.flight, 35, 36000, 30, false⟩ 0 10
    (by norm_num) (by norm_num) (by norm_num)

/-!
## Concierge data model (`apps/concierge-svc/app/schemas.py`, `models.py`)
-/

structure FlightOption where
  id : String
  origin : String
  destination : String
  departureTime : ℤ
  arrivalTime : ℤ
  airline : String
  flightClass : String
  price : ℚ
  durationMinutes : ℤ
  seatsAvailable : Option ℤ
deriving DecidableEq

structure HotelOption where
  id : String
  name : String
  starRating : ℚ
  pricePerNight : ℚ
  nights : ℕ
  amenities : List String
  neighborhood : Option String
deriving DecidableEq

structure CarOption where
  id : String
  provider : String
  carType : String
  dailyPrice : ℚ
  seats : ℕ
  transmission : Option String
deriving DecidableEq

structure BundlePreferences where
  flightClass : String
  hotelStarRating : Option (List ℤ)
  amenities : Option (List String)
  petFriendly : Option Bool
  avoidRedEye : Option Bool
deriving DecidableEq

structure BundleConstraints where
  adults : ℕ
  children : ℕ
  rooms : ℕ
deriving DecidableEq

structure BundleRequest where
  origin : Option String
  destination : String
  departureDate : ℤ
  returnDate : Option ℤ
  budget : ℚ
  preferences : BundlePreferences
  constraints : BundleConstraints
deriving DecidableEq

inductive ComponentType
  | flight
  | hotel
  | car
deriving DecidableEq

/-- Typed rendering of the per-type `metadata` dict of a bundle component
(bundle_engine.py `_build_components`). -/
inductive ComponentMeta
  | flightMeta (departure arrival : ℤ) (flightClass : String) (duration : ℤ)
  | hotelMeta (nights : ℕ) (amenities : List String) (neighborhood : Option String)
  | carMeta (transmission : Option String) (seats : ℕ)
deriving DecidableEq

structure BundleComponent where
  ctype : ComponentType
  summary : String
  price : ℚ
  metadata : ComponentMeta
deriving DecidableEq

structure Bundle where
  id : String
  destination : String
  totalPrice : ℚ
  savings : ℚ
  fitScore : ℚ
  explanation : String
  validUntil : ℤ
  components : List BundleComponent
deriving DecidableEq

structure BundleResponse where
  bundles : List Bundle
  searchId : String
  totalResults : ℕ
deriving DecidableEq

/-- The two keys of the stored event dict that the bundle engine reads
through `deal.payload.get(...)` (bundle_engine.py lines 116-122): the
double-encoded `type` and the nested `price.discount`. -/
structure DealPayload where
  ptype : Option String
  priceDiscount : Option ℚ
deriving DecidableEq

/-- A `cached_deals` row (models.py `CachedDeal`). -/
structure CachedDeal where
  dealId : String
  dtype : String
  destination : String
  summary : String
  payload : DealPayload
  score : ℚ
  priceValue : ℚ
  inventory : Option ℤ
  validUntil : ℤ
  updatedAt : ℤ
deriving DecidableEq

/-- Value of `deal.payload.get("price", {}).get("discount", 0)`. -/
def payloadDiscount (d : CachedDeal) : ℚ := d.payload.priceDiscount.getD 0

/-- The configuration fields of `Settings` (config.py) that the bundle
engine reads. -/
structure Settings where
  bundleLimit : ℕ
deriving DecidableEq

/-!
## Deal cache (`apps/concierge-svc/app/services/deal_cache.py`)

`top_deals` (lines 110-116) builds
`SELECT * FROM cached_deals [WHERE destination = ?] ORDER BY score DESC
LIMIT ?`.  The table is modelled as a list of rows in storage order; the
SQL `ORDER BY score DESC` as a stable sort by score descending (ties keep
storage order; SQL leaves tie order unspecified, and no secondary sort key
is requested by the code).  Note: the query contains NO `valid_until`
filter and NO `updated_at` tie-break.
-/

/-- Descending-score ordering used by the `ORDER BY score DESC` clause. -/
def scoreGE (a b : CachedDeal) : Prop := b.score ≤ a.score

instance : DecidableRel scoreGE := fun a b => inferInstanceAs (Decidable (b.score ≤ a.score))

instance : IsTotal CachedDeal scoreGE := ⟨fun a b => le_total b.score a.score⟩

instance : IsTrans CachedDeal scoreGE := ⟨fun _ _ _ h1 h2 => le_trans h2 h1⟩

/-- The optional `WHERE destination = ?` clause of `top_deals`. -/
def destFiltered (rows : List CachedDeal) (destination : Option String) : List CachedDeal :=
  match destination with
  | some d => rows.filter (fun row => row.destination = d)
  | none => rows

/-- `DealCache.top_deals(destination?, limit)` (deal_cache.py lines
110-116). -/
def topDeals (rows : List CachedDeal) (destination : Option String) (lim : ℕ) : List CachedDeal :=
  (List.insertionSort scoreGE (destFiltered rows destination)).take lim

/-- C4 (amended): `top_deals` returns the `limit` highest-score rows among
ALL stored rows (no `valid_until` expiry filter), restricted to the given
destination when one is supplied; the result is sorted by score descending
and any stored row (matching the filter) left out of a full result has
score at most that of every returned row.  No `updated_at` tie-break is
applied. -/
theorem topdeals_characterization (rows : List CachedDeal) (destination : Option String) (lim : ℕ) :
    (∀ d ∈ topDeals rows destination lim, d ∈ destFiltered rows destination)
    ∧ List.Sorted scoreGE (topDeals rows destination lim)
    ∧ (topDeals rows destination lim).length = min lim (destFiltered rows destination).length
    ∧ (∀ e ∈ destFiltered rows destination,
        (topDeals rows destination lim).count e < (destFiltered rows destination).count e →
        ∀ d ∈ topDeals rows destination lim, e.score ≤ d.score) := by
  have hperm : (List.insertionSort scoreGE (destFiltered rows destination)).Perm
      (destFiltered rows destination) := List.perm_insertionSort _ _
  have hsorted : List.Sorted scoreGE (List.insertionSort scoreGE (destFiltered rows destination)) :=
    List.sorted_insertionSort _ _
  refine ⟨?_, ?_, ?_, ?_⟩
  · intro d hd
    exact hperm.mem_iff.mp (List.mem_of_mem_take hd)
  · exact hsorted.sublist (List.take_sublist _ _)
  · rw [topDeals, List.length_take, hperm.length_eq]
  · intro e _ hcount d hd
    have hsplit := List.take_append_drop lim (List.insertionSort scoreGE (destFiltered rows destination))
    have hcountall : (List.insertionSort scoreGE (destFiltered rows destination)).count e
        = (destFiltered rows destination).count e := hperm.count_eq e
    have hdropmem : e ∈ (List.insertionSort scoreGE (destFiltered rows destination)).drop lim := by
      have h2 : ((List.insertionSort scoreGE (destFiltered rows destination)).take lim).count e
          + ((List.insertionSort scoreGE (destFiltered rows destination)).drop lim).count e
          = (destFiltered rows destination).count e := by
        rw [← List.count_append, hsplit, hcountall]
      have h3 : (topDeals rows destination lim).count e
          = ((List.insertionSort scoreGE (destFiltered rows destination)).take lim).count e := rfl
      rw [h3] at hcount
      have : 0 < ((List.insertionSort scoreGE (destFiltered rows destination)).drop lim).count e := by
        omega
      exact List.count_pos_iff.mp this
    have hpw : List.Pairwise scoreGE
        ((List.insertionSort scoreGE (destFiltered rows destination)).take lim
          ++ (List.insertionSort scoreGE (destFiltered rows destination)).drop lim) := by
      rw [hsplit]; exact hsorted
    exact (List.pairwise_append.mp hpw).2.2 d hd e hdropmem

/-- Expired top-score LAX deal (its `valid_until` is before the reader's
clock), used to exhibit the missing expiry filter in `top_deals`. -/
def cexExpiredDeal : CachedDeal :=
  { dealId := "d-exp", dtype := "hotel", destination := "LAX",
    summary := "expired hotel deal",
    payload := { ptype := some "hotel", priceDiscount := some 50 },
    score := 90, priceValue := 100, inventory := none,
    validUntil := 0, updatedAt := 0 }

/-- Unexpired LAX deal with a lower score. -/
def cexFreshDeal : CachedDeal :=
  { dealId := "d-fresh", dtype := "hotel", destination := "LAX",
    summary := "fresh hotel deal",
    payload := { ptype := some "hotel", priceDiscount := some 10 },
    score := 50, priceValue := 120, inventory := none,
    validUntil := 1000, updatedAt := 1 }

/-- Unexpired LAX deal with a middling score. -/
def cexMidDeal : CachedDeal :=
  { dealId := "d-mid", dtype := "flight", destination := "LAX",
    summary := "mid flight deal",
    payload := { ptype := some "flight", priceDiscount := some 20 },
    score := 70, priceValue := 110, inventory := none,
    validUntil := 1000, updatedAt := 2 }

/-- Counterexample to C4 as stated: with the reader's clock at `now = 100`,
the stored expired deal (`valid_until = 0 ≤ now`) is returned by
`top_deals` — the code applies no `valid_until > now` filter, so the result
is not drawn from the unexpired deals only. -/
theorem topdeals_counterexample :
    topDeals [cexExpiredDeal, cexFreshDeal] (some "LAX") 5 = [cexExpiredDeal, cexFreshDeal]
    ∧ cexExpiredDeal.validUntil ≤ 100 := by
  constructor
  · decide
  · decide

/-- Witness for the amended C4 theorem: on three concrete LAX deals with
limit 2, the dropped lowest-score deal's score is bounded by a returned
deal's score. -/
theorem topdeals_characterization_witness :
    cexFreshDeal.score ≤ cexMidDeal.score :=
  (topdeals_characterization [cexExpiredDeal, cexFreshDeal, cexMidDeal] none 2).2.2.2
    cexFreshDeal (by decide) (by decide) cexMidDeal (by decide)

/-!
## HTTP clients (`apps/concierge-svc/app/services/http_clients.py`)

Each fetch wraps the upstream call in try/except: a network or validation
failure, or an empty parsed list (`_transform_results(...) or _fallback`),
yields the deterministic fallback option.  The upstream outcome is modelled
as an explicit `Upstream` value: `ok items` is a successfully parsed
response body, `failed` is any raised exception (timeout, non-2xx after the
retries, validation error).
-/

inductive Upstream (α : Type)
  | ok (items : List α)
  | failed

/-- `_fallback_flights` (http_clients.py lines 15-30). -/
def fallbackFlights (r : BundleRequest) : List FlightOption :=
  [{ id := "demo-flight-1", origin := r.origin.getD "SFO", destination := r.destination,
     departureTime := r.departureDate, arrivalTime := r.departureDate + 5 * 3600,
     airline := "Kayak Airways", flightClass := r.preferences.flightClass,
     price := min (r.budget * (35/100)) 450, durationMinutes := 310,
     seatsAvailable := some 12 }]

/-- `_fallback_hotels` (http_clients.py lines 33-44). -/
def fallbackHotels (r : BundleRequest) : List HotelOption :=
  [{ id := "demo-hotel-1", name := "Kayak Grand", starRating := 9/2,
     pricePerNight := min (r.budget * (3/10)) 280, nights := 3,
     amenities := ["wifi", "breakfast", "parking"], neighborhood := some "Downtown" }]

/-- `_fallback_cars` (http_clients.py lines 47-57). -/
def fallbackCars (r : BundleRequest) : List CarOption :=
  [{ id := "demo-car-1", provider := "Kayak Rentals", carType := "SUV",
     dailyPrice := 65, seats := 5, transmission := some "automatic" }]

/-- `fetch_flights` (http_clients.py lines 83-91). -/
def fetchFlights (r : BundleRequest) (u : Upstream FlightOption) : List FlightOption :=
  match u with
  | .ok items => if items.isEmpty then fallbackFlights r else items
  | .failed => fallbackFlights r

/-- `fetch_hotels` (http_clients.py lines 94-102). -/
def fetchHotels (r : BundleRequest) (u : Upstream HotelOption) : List HotelOption :=
  match u with
  | .ok items => if items.isEmpty then fallbackHotels r else items
  | .failed => fallbackHotels r

/-- `fetch_cars` (http_clients.py lines 105-113). -/
def fetchCars (r : BundleRequest) (u : Upstream CarOption) : List CarOption :=
  match u with
  | .ok items => if items.isEmpty then fallbackCars r else items
  | .failed => fallbackCars r

theorem fetchFlights_ne_nil (r : BundleRequest) (u : Upstream FlightOption) :
    fetchFlights r u ≠ [] := by
  cases u with
  | failed => simp [fetchFlights, fallbackFlights]
  | ok items =>
    by_cases h : items.isEmpty <;> simp [fetchFlights, h, fallbackFlights]
    exact List.isEmpty_eq_false.mp (by simp [h])

theorem fetchHotels_ne_nil (r : BundleRequest) (u : Upstream HotelOption) :
    fetchHotels r u ≠ [] := by
  cases u with
  | failed => simp [fetchHotels, fallbackHotels]
  | ok items =>
    by_cases h : items.isEmpty <;> simp [fetchHotels, h, fallbackHotels]
    exact List.isEmpty_eq_false.mp (by simp [h])

theorem fetchCars_ne_nil (r : BundleRequest) (u : Upstream CarOption) :
    fetchCars r u ≠ [] := by
  cases u with
  | failed => simp [fetchCars, fallbackCars]
  | ok items =>
    by_cases h : items.isEmpty <;> simp [fetchCars, h, fallbackCars]
    exact List.isEmpty_eq_false.mp (by simp [h])

/-!
## Bundle engine (`apps/concierge-svc/app/services/bundle_engine.py`)

`generate` (lines 95-147) with its helpers.  Nondeterministic ingredients
are passed explicitly: the `uuid4` bundle ids as a naming function `mkId`,
the `uuid4` search id as `searchId`, and the already-fetched inventory
lists (the `asyncio.gather` fan-out result).
-/

/-- Clamped linear interpolation `np.interp(x, [x0, x1], [y0, y1])`. -/
def npInterp (x x0 x1 y0 y1 : ℚ) : ℚ :=
  if x ≤ x0 then y0
  else if x1 ≤ x then y1
  else y0 + (x - x0) * (y1 - y0) / (x1 - x0)

theorem npInterp_bounds (x x0 x1 y0 y1 : ℚ) (hx : x0 < x1) (hy : y0 ≤ y1) :
    y0 ≤ npInterp x x0 x1 y0 y1 ∧ npInterp x x0 x1 y0 y1 ≤ y1 := by
  unfold npInterp
  split_ifs with h1 h2
  · exact ⟨le_refl _, hy⟩
  · exact ⟨hy, le_refl _⟩
  · push_neg at h1 h2
    constructor
    · have : 0 ≤ (x - x0) * (y1 - y0) / (x1 - x0) := by
        apply div_nonneg
        · nlinarith
        · linarith
      linarith
    · have hpos : (0:ℚ) < x1 - x0 := by linarith
      have hle : (x - x0) * (y1 - y0) / (x1 - x0) ≤ y1 - y0 := by
        rw [div_le_iff₀ hpos]
        nlinarith
      linarith

/-- `_price_summary` (bundle_engine.py lines 43-49): total and the 1.15×
baseline. -/
def priceSummary (fare : FlightOption) (hotel : HotelOption) (car : CarOption) : ℚ × ℚ :=
  let hotelTotal := hotel.pricePerNight * (hotel.nights : ℚ)
  let carTotal := car.dailyPrice * ((max hotel.nights 1 : ℕ) : ℚ)
  let total := fare.price + hotelTotal + carTotal
  (total, total * (115/100))

/-- Hotel-preference part of `_fit_score` (bundle_engine.py lines 56-58):
25 when the preference list is present, non-empty, and contains the
hotel's star rating (Python `float == int` comparison), else 10. -/
def hotelScoreCalc (r : BundleRequest) (hotel : HotelOption) : ℚ :=
  match r.preferences.hotelStarRating with
  | some stars => if stars ≠ [] ∧ hotel.starRating ∈ stars.map (fun s => (s : ℚ))
      then 25 else 10
  | none => 10

/-- `_fit_score` (bundle_engine.py lines 51-60).  The `baseline` parameter
is accepted and ignored, as in the source. -/
def fitScoreCalc (totalPrice baseline : ℚ) (r : BundleRequest) (hotel : HotelOption)
    (dealBonus : ℚ) : ℚ :=
  min 100 (npInterp (max (r.budget - totalPrice) 0) 0 r.budget 10 35
    + hotelScoreCalc r hotel + dealBonus)

/-- Hotel-deal test of the overlay loop (bundle_engine.py line 116):
payload type is `"hotel"` and the hotel name occurs case-insensitively in
the deal summary. -/
def hotelDealMatch (hotel : HotelOption) (d : CachedDeal) : Bool :=
  d.payload.ptype == some "hotel" && strContains (lowerString d.summary) (lowerString hotel.name)

/-- Flight-deal test of the overlay loop (bundle_engine.py line 121):
payload type is `"flight"` and the flight origin occurs (case-sensitively)
in the deal summary. -/
def flightDealMatch (flight : FlightOption) (d : CachedDeal) : Bool :=
  d.payload.ptype == some "flight" && strContains d.summary flight.origin

/-- The deal-overlay loop body (bundle_engine.py lines 113-125): scan the
deals in list order, skip other destinations, stop at the first hotel or
flight match; returns the savings increment, the deal bonus and the
overriding explanation (`none` when no deal matched). -/
def scanDeals (r : BundleRequest) (flight : FlightOption) (hotel : HotelOption) :
    List CachedDeal → ℚ × ℚ × Option String
  | [] => (0, 0, none)
  | d :: rest =>
    if d.destination ≠ r.destination then scanDeals r flight hotel rest
    else if hotelDealMatch hotel d then
      (payloadDiscount d, max 0 (min (d.score / 2) 25), some ("Hotel deal: " ++ d.summary))
    else if flightDealMatch flight d then
      (payloadDiscount d, max 0 (min (d.score / 2) 25), some ("Flight deal: " ++ d.summary))
    else scanDeals r flight hotel rest

/-- Decimal-ish rendering of a rational used only inside component summary
strings (Python interpolates the float; no claim depends on this text). -/
def ratStr (q : ℚ) : String :=
  if q.den = 1 then toString q.num else toString q.num ++ "/" ++ toString q.den

/-- Flight entry of `_build_components` (bundle_engine.py lines 66-76). -/
def flightComponent (flight : FlightOption) : BundleComponent :=
  { ctype := .flight,
    summary := flight.airline ++ " " ++ flight.origin ++ "→" ++ flight.destination,
    price := flight.price,
    metadata := .flightMeta flight.departureTime flight.arrivalTime
      flight.flightClass flight.durationMinutes }

/-- Hotel entry of `_build_components` (bundle_engine.py lines 77-86). -/
def hotelComponent (hotel : HotelOption) : BundleComponent :=
  { ctype := .hotel,
    summary := hotel.name ++ " · " ++ ratStr hotel.starRating ++ "★",
    price := hotel.pricePerNight * (hotel.nights : ℚ),
    metadata := .hotelMeta hotel.nights hotel.amenities hotel.neighborhood }

/-- Car entry of `_build_components` (bundle_engine.py lines 87-92). -/
def carComponent (car : CarOption) (nights : ℕ) : BundleComponent :=
  { ctype := .car,
    summary := car.provider ++ " " ++ car.carType,
    price := car.dailyPrice * ((max nights 1 : ℕ) : ℚ),
    metadata := .carMeta car.transmission car.seats }

/-- `_build_components` (bundle_engine.py lines 62-93). -/
def buildComponents (flight : FlightOption) (hotel : HotelOption) (car : CarOption) :
    List BundleComponent :=
  [flightComponent flight, hotelComponent hotel, carComponent car hotel.nights]

/-- One iteration of the enumeration loop of `generate` (bundle_engine.py
lines 105-138): pricing, deal overlay, fit scoring and `Bundle`
construction for one `(flight, hotel, car)` triple. -/
def mkCandidate (r : BundleRequest) (deals : List CachedDeal) (bid : String)
    (flight : FlightOption) (hotel : HotelOption) (car : CarOption) : Bundle :=
  let ps := priceSummary flight hotel car
  let overlay := scanDeals r flight hotel deals
  let savings := max 0 (ps.2 - ps.1) + overlay.1
  let fit := fitScoreCalc ps.1 ps.2 r hotel overlay.2.1
  { id := bid, destination := r.destination,
    totalPrice := round2 ps.1, savings := round2 savings, fitScore := round2 fit,
    explanation := overlay.2.2.getD "Balanced itinerary with matched preferences",
    validUntil := r.departureDate - 86400,
    components := buildComponents flight hotel car }

/-- The triple loop of `generate` (bundle_engine.py lines 105-138): first 3
flights × first 3 hotels × first 2 cars. -/
def candidateBundles (r : BundleRequest) (deals : List CachedDeal)
    (mkId : FlightOption → HotelOption → CarOption → String)
    (fs : List FlightOption) (hs : List HotelOption) (cs : List CarOption) : List Bundle :=
  (fs.take 3).flatMap fun f =>
    (hs.take 3).flatMap fun h =>
      (cs.take 2).map fun c => mkCandidate r deals (mkId f h c) f h c

/-- Descending fit-score order of the final stable sort
(`bundles.sort(key=..., reverse=True)`, bundle_engine.py line 140). -/
def fitDesc (a b : Bundle) : Prop := b.fitScore ≤ a.fitScore

instance : DecidableRel fitDesc := fun a b => inferInstanceAs (Decidable (b.fitScore ≤ a.fitScore))

instance : IsTotal Bundle fitDesc := ⟨fun a b => le_total b.fitScore a.fitScore⟩

instance : IsTrans Bundle fitDesc := ⟨fun _ _ _ h1 h2 => le_trans h2 h1⟩

/-- The cache-miss pipeline of `generate` (bundle_engine.py lines 101-143):
enumerate candidates against the top-5 destination deals, sort by fit score
descending, truncate to `bundle_limit`. -/
def computeResponse (st : Settings) (r : BundleRequest) (rows : List CachedDeal)
    (mkId : FlightOption → HotelOption → CarOption → String) (searchId : String)
    (fs : List FlightOption) (hs : List HotelOption) (cs : List CarOption) : BundleResponse :=
  let deals := topDeals rows (some r.destination) 5
  let sorted := List.insertionSort fitDesc (candidateBundles r deals mkId fs hs cs)
  let bs := sorted.take st.bundleLimit
  { bundles := bs, searchId := searchId, totalResults := bs.length }

/-- Canonical serialization of a request with fields in sorted key order
(`json.dumps(request.model_dump(mode="json"), sort_keys=True)`,
bundle_engine.py lines 26-29).  The SHA-1 digest applied on top of it in
`_cache_key` is deterministic and collision-free for all practical
purposes, so the fingerprint is modelled by the canonical serialization
itself. -/
def cacheKey (r : BundleRequest) : String :=
  "budget=" ++ toString r.budget.num ++ "/" ++ toString r.budget.den
    ++ ";constraints=" ++ toString r.constraints.adults ++ ","
    ++ toString r.constraints.children ++ "," ++ toString r.constraints.rooms
    ++ ";departure_date=" ++ toString r.departureDate
    ++ ";destination=" ++ r.destination
    ++ ";origin=" ++ r.origin.getD "null"
    ++ ";preferences=" ++ (match r.preferences.amenities with
        | some l => String.intercalate "," l | none => "null")
    ++ "|" ++ (match r.preferences.avoidRedEye with
        | some true => "true" | some false => "false" | none => "null")
    ++ "|" ++ r.preferences.flightClass
    ++ "|" ++ (match r.preferences.hotelStarRating with
        | some l => String.intercalate "," (l.map toString) | none => "null")
    ++ "|" ++ (match r.preferences.petFriendly with
        | some true => "true" | some false => "false" | none => "null")
    ++ ";return_date=" ++ (match r.returnDate with
        | some t => toString t | none => "null")

/-- The hot cache keyspace `concierge:bundle:{key}` as a key-value store.
The 10-minute `setex` TTL is modelled as the cache staying live (claims
about it presuppose a live hot cache within the TTL). -/
abbrev Store := List (String × BundleResponse)

/-- `BundleEngine.generate` (bundle_engine.py lines 95-147): consult the
hot cache under the request fingerprint; on a hit return the stored
response unchanged; on a miss run the pipeline and store the response.
The `cache_bundles` persistence side path (separate `bundles:{user}`
keyspace) does not affect this store and is omitted. -/
def generate (st : Settings) (store : Store) (r : BundleRequest)
    (rows : List CachedDeal) (mkId : FlightOption → HotelOption → CarOption → String)
    (searchId : String) (fs : List FlightOption) (hs : List HotelOption)
    (cs : List CarOption) : BundleResponse × Store :=
  match store.lookup (cacheKey r) with
  | some resp => (resp, store)
  | none =>
    let resp := computeResponse st r rows mkId searchId fs hs cs
    (resp, (cacheKey r, resp) :: store)

/-- C2: with a live hot cache, a second `generate` call with the identical
request returns the response of the first call verbatim, whatever the
second call's environment (inventory, deals, clock draws) would have
produced: a miss stores the response under the request fingerprint and a
hit returns the stored response unchanged. -/
theorem cache_hit_returns_stored (st st' : Settings) (s0 : Store) (r : BundleRequest)
    (rows rows' : List CachedDeal)
    (mkId mkId' : FlightOption → HotelOption → CarOption → String)
    (sid sid' : String) (fs fs' : List FlightOption) (hs hs' : List HotelOption)
    (cs cs' : List CarOption) :
    (generate st' (generate st s0 r rows mkId sid fs hs cs).2 r rows' mkId' sid' fs' hs' cs').1
      = (generate st s0 r rows mkId sid fs hs cs).1 := by
  unfold generate
  cases hl : s0.lookup (cacheKey r) with
  | some resp => simp [hl]
  | none => simp [hl, List.lookup]

theorem mem_candidateBundles {r : BundleRequest} {deals : List CachedDeal}
    {mkId : FlightOption → HotelOption → CarOption → String}
    {fs : List FlightOption} {hs : List HotelOption} {cs : List CarOption} {B : Bundle}
    (hB : B ∈ candidateBundles r deals mkId fs hs cs) :
    ∃ f ∈ fs.take 3, ∃ h ∈ hs.take 3, ∃ c ∈ cs.take 2,
      B = mkCandidate r deals (mkId f h c) f h c := by
  simp only [candidateBundles, List.mem_flatMap, List.mem_map] at hB
  obtain ⟨f, hf, h, hh, c, hc, rfl⟩ := hB
  exact ⟨f, hf, h, hh, c, hc, rfl⟩

theorem scanDeals_savings_nonneg (r : BundleRequest) (flight : FlightOption)
    (hotel : HotelOption) (deals : List CachedDeal)
    (hd : ∀ d ∈ deals, 0 ≤ payloadDiscount d) :
    0 ≤ (scanDeals r flight hotel deals).1 := by
  revert hd
  induction deals with
  | nil =>
    intro hd
    simp [scanDeals]
  | cons d rest ih =>
    intro hd
    have hd0 : 0 ≤ payloadDiscount d := hd d (List.mem_cons_self _ _)
    have hrest : ∀ x ∈ rest, 0 ≤ payloadDiscount x :=
      fun x hx => hd x (List.mem_cons_of_mem _ hx)
    simp only [scanDeals]
    split_ifs
    · exact ih hrest
    · exact hd0
    · exact hd0
    · exact ih hrest

theorem scanDeals_bonus_bounds (r : BundleRequest) (flight : FlightOption)
    (hotel : HotelOption) (deals : List CachedDeal) :
    0 ≤ (scanDeals r flight hotel deals).2.1 ∧ (scanDeals r flight hotel deals).2.1 ≤ 25 := by
  induction deals with
  | nil => simp [scanDeals]
  | cons d rest ih =>
    simp only [scanDeals]
    split_ifs
    · exact ih
    · exact ⟨le_max_left 0 _, max_le (by norm_num) (min_le_right _ _)⟩
    · exact ⟨le_max_left 0 _, max_le (by norm_num) (min_le_right _ _)⟩
    · exact ih

theorem hotelScoreCalc_bounds (r : BundleRequest) (hotel : HotelOption) :
    10 ≤ hotelScoreCalc r hotel ∧ hotelScoreCalc r hotel ≤ 25 := by
  cases hsr : r.preferences.hotelStarRating with
  | none =>
    simp only [hotelScoreCalc, hsr]
    norm_num
  | some stars =>
    simp only [hotelScoreCalc, hsr]
    split_ifs <;> norm_num

theorem fitScoreCalc_bounds (total baseline : ℚ) (r : BundleRequest) (hotel : HotelOption)
    (bonus : ℚ) (hb : 0 < r.budget) (h0 : 0 ≤ bonus) :
    0 ≤ fitScoreCalc total baseline r hotel bonus
      ∧ fitScoreCalc total baseline r hotel bonus ≤ 100 := by
  unfold fitScoreCalc
  obtain ⟨hbs0, hbs1⟩ :=
    npInterp_bounds (max (r.budget - total) 0) 0 r.budget 10 35 hb (by norm_num)
  obtain ⟨hhs0, hhs1⟩ := hotelScoreCalc_bounds r hotel
  exact ⟨le_min (by norm_num) (by linarith), min_le_left _ _⟩

/-- C1: every bundle produced by the generate pipeline has `total_price`
equal to the sum of its three component prices to within one cent,
non-negative `savings` (given non-negative stored deal discounts),
`fit_score` in [0, 100], exactly three components with exactly one each of
type flight, hotel and car, and `valid_until` equal to the departure date
minus one day, hence strictly before the departure date. -/
theorem bundle_invariants (st : Settings) (r : BundleRequest) (rows : List CachedDeal)
    (mkId : FlightOption → HotelOption → CarOption → String) (sid : String)
    (fs : List FlightOption) (hs : List HotelOption) (cs : List CarOption)
    (hb : 0 < r.budget)
    (hdisc : ∀ d ∈ topDeals rows (some r.destination) 5, 0 ≤ payloadDiscount d) :
    ∀ B ∈ (computeResponse st r rows mkId sid fs hs cs).bundles,
      |B.totalPrice - (B.components.map (fun comp => comp.price)).sum| ≤ 1/100
      ∧ 0 ≤ B.savings
      ∧ (0 ≤ B.fitScore ∧ B.fitScore ≤ 100)
      ∧ B.components.length = 3
      ∧ B.components.countP (fun comp => comp.ctype == ComponentType.flight) = 1
      ∧ B.components.countP (fun comp => comp.ctype == ComponentType.hotel) = 1
      ∧ B.components.countP (fun comp => comp.ctype == ComponentType.car) = 1
      ∧ B.validUntil = r.departureDate - 86400
      ∧ B.validUntil < r.departureDate := by
  intro B hB
  have hB1 : B ∈ (List.insertionSort fitDesc
      (candidateBundles r (topDeals rows (some r.destination) 5) mkId fs hs cs)).take
        st.bundleLimit := hB
  have hB2 := ((List.perm_insertionSort fitDesc _).mem_iff).mp (List.mem_of_mem_take hB1)
  obtain ⟨f, hf, h, hh, c, hc, rfl⟩ := mem_candidateBundles hB2
  have hbonus := scanDeals_bonus_bounds r f h (topDeals rows (some r.destination) 5)
  have hfit := fitScoreCalc_bounds (priceSummary f h c).1 (priceSummary f h c).2 r h
    (scanDeals r f h (topDeals rows (some r.destination) 5)).2.1 hb hbonus.1
  refine ⟨?_, ?_, ⟨?_, ?_⟩, ?_, ?_, ?_, ?_, ?_, ?_⟩
  · have hsum : ((mkCandidate r (topDeals rows (some r.destination) 5) (mkId f h c)
        f h c).components.map (fun comp => comp.price)).sum = (priceSummary f h c).1 := by
      simp [mkCandidate, buildComponents, flightComponent, hotelComponent, carComponent,
        priceSummary]
      ring
    rw [hsum]
    have habs := abs_round2_sub_le (priceSummary f h c).1
    have htp : (mkCandidate r (topDeals rows (some r.destination) 5) (mkId f h c)
        f h c).totalPrice = round2 (priceSummary f h c).1 := rfl
    rw [htp]
    linarith
  · have hsav : (mkCandidate r (topDeals rows (some r.destination) 5) (mkId f h c)
        f h c).savings = round2 (max 0 ((priceSummary f h c).2 - (priceSummary f h c).1)
          + (scanDeals r f h (topDeals rows (some r.destination) 5)).1) := rfl
    rw [hsav]
    apply round2_nonneg
    have h1 := scanDeals_savings_nonneg r f h (topDeals rows (some r.destination) 5) hdisc
    have h2 := le_max_left (0:ℚ) ((priceSummary f h c).2 - (priceSummary f h c).1)
    linarith
  · have hfs : (mkCandidate r (topDeals rows (some r.destination) 5) (mkId f h c)
        f h c).fitScore = round2 (fitScoreCalc (priceSummary f h c).1 (priceSummary f h c).2
          r h (scanDeals r f h (topDeals rows (some r.destination) 5)).2.1) := rfl
    rw [hfs]
    exact round2_nonneg _ hfit.1
  · have hfs : (mkCandidate r (topDeals rows (some r.destination) 5) (mkId f h c)
        f h c).fitScore = round2 (fitScoreCalc (priceSummary f h c).1 (priceSummary f h c).2
          r h (scanDeals r f h (topDeals rows (some r.destination) 5)).2.1) := rfl
    rw [hfs]
    have h100 := round2_le (fitScoreCalc (priceSummary f h c).1 (priceSummary f h c).2
      r h (scanDeals r f h (topDeals rows (some r.destination) 5)).2.1) 100
      (by exact_mod_cast hfit.2)
    exact_mod_cast h100
  · rfl
  · rfl
  · rfl
  · rfl
  · rfl
  · show r.departureDate - 86400 < r.departureDate
    omega

/-- Concrete preferences for the witness scenarios (spec §8 scenario 1). -/
def c1Prefs : BundlePreferences :=
  { flightClass := "economy", hotelStarRating := some [4, 5], amenities := none,
    petFriendly := none, avoidRedEye := none }

/-- Concrete bundle request: SFO→LAX, budget 1200. -/
def c1Req : BundleRequest :=
  { origin := some "SFO", destination := "LAX", departureDate := 1209600,
    returnDate := some 1555200, budget := 1200, preferences := c1Prefs,
    constraints := { adults := 2, children := 0, rooms := 1 } }

/-- Concrete flight option (price 320). -/
def c1Flight : FlightOption :=
  { id := "f1", origin := "SFO", destination := "LAX", departureTime := 1209600,
    arrivalTime := 1227600, airline := "United", flightClass := "economy", price := 320,
    durationMinutes := 310, seatsAvailable := some 20 }

/-- Concrete hotel option (180/night, 3 nights, 4 stars). -/
def c1Hotel : HotelOption :=
  { id := "h1", name := "Hotel Test", starRating := 4, pricePerNight := 180, nights := 3,
    amenities := ["wifi"], neighborhood := none }

/-- Concrete car option (45/day). -/
def c1Car : CarOption :=
  { id := "c1", provider := "Hertz", carType := "SUV", dailyPrice := 45, seats := 5,
    transmission := some "automatic" }

/-- Witness for C1: the invariants instantiated on the single bundle the
pipeline produces from one flight, one hotel and one car with an empty
deal cache. -/
theorem bundle_invariants_witness :
    |(mkCandidate c1Req (topDeals [] (some c1Req.destination) 5) "b1" c1Flight c1Hotel
        c1Car).totalPrice
      - ((mkCandidate c1Req (topDeals [] (some c1Req.destination) 5) "b1" c1Flight c1Hotel
          c1Car).components.map (fun comp => comp.price)).sum| ≤ 1/100
    ∧ 0 ≤ (mkCandidate c1Req (topDeals [] (some c1Req.destination) 5) "b1" c1Flight c1Hotel
        c1Car).savings
    ∧ (0 ≤ (mkCandidate c1Req (topDeals [] (some c1Req.destination) 5) "b1" c1Flight c1Hotel
        c1Car).fitScore
      ∧ (mkCandidate c1Req (topDeals [] (some c1Req.destination) 5) "b1" c1Flight c1Hotel
        c1Car).fitScore ≤ 100)
    ∧ (mkCandidate c1Req (topDeals [] (some c1Req.destination) 5) "b1" c1Flight c1Hotel
        c1Car).components.length = 3
    ∧ (mkCandidate c1Req (topDeals [] (some c1Req.destination) 5) "b1" c1Flight c1Hotel
        c1Car).components.countP (fun comp => comp.ctype == ComponentType.flight) = 1
    ∧ (mkCandidate c1Req (topDeals [] (some c1Req.destination) 5) "b1" c1Flight c1Hotel
        c1Car).components.countP (fun comp => comp.ctype == ComponentType.hotel) = 1
    ∧ (mkCandidate c1Req (topDeals [] (some c1Req.destination) 5) "b1" c1Flight c1Hotel
        c1Car).components.countP (fun comp => comp.ctype == ComponentType.car) = 1
    ∧ (mkCandidate c1Req (topDeals [] (some c1Req.destination) 5) "b1" c1Flight c1Hotel
        c1Car).validUntil = c1Req.departureDate - 86400
    ∧ (mkCandidate c1Req (topDeals [] (some c1Req.destination) 5) "b1" c1Flight c1Hotel
        c1Car).validUntil < c1Req.departureDate :=
  bundle_invariants ⟨5⟩ c1Req [] (fun _ _ _ => "b1") "s1" [c1Flight] [c1Hotel] [c1Car]
    (by norm_num [c1Req]) (by decide)
    (mkCandidate c1Req (topDeals [] (some c1Req.destination) 5) "b1" c1Flight c1Hotel c1Car)
    (List.mem_cons_self _ _)

theorem generate_fst_of_miss (st : Settings) (s0 : Store) (r : BundleRequest)
    (rows : List CachedDeal) (mkId : FlightOption → HotelOption → CarOption → String)
    (sid : String) (fs : List FlightOption) (hs : List HotelOption) (cs : List CarOption)
    (hmiss : s0.lookup (cacheKey r) = none) :
    (generate st s0 r rows mkId sid fs hs cs).1 = computeResponse st r rows mkId sid fs hs cs := by
  unfold generate
  rw [hmiss]

theorem candidateBundles_ne_nil (r : BundleRequest) (deals : List CachedDeal)
    (mkId : FlightOption → HotelOption → CarOption → String)
    {fs : List FlightOption} {hs : List HotelOption} {cs : List CarOption}
    (hf : fs ≠ []) (hh : hs ≠ []) (hc : cs ≠ []) :
    candidateBundles r deals mkId fs hs cs ≠ [] := by
  obtain ⟨f, fs', rfl⟩ := List.exists_cons_of_ne_nil hf
  obtain ⟨h, hs', rfl⟩ := List.exists_cons_of_ne_nil hh
  obtain ⟨c, cs', rfl⟩ := List.exists_cons_of_ne_nil hc
  intro hcontra
  have hmem : mkCandidate r deals (mkId f h c) f h c
      ∈ candidateBundles r deals mkId (f :: fs') (h :: hs') (c :: cs') := by
    simp only [candidateBundles, List.mem_flatMap, List.mem_map]
    refine ⟨f, ?_, h, ?_, c, ?_, rfl⟩ <;> simp
  rw [hcontra] at hmem
  cases hmem

theorem computeResponse_bundles_ne_nil (st : Settings) (r : BundleRequest)
    (rows : List CachedDeal) (mkId : FlightOption → HotelOption → CarOption → String)
    (sid : String) {fs : List FlightOption} {hs : List HotelOption} {cs : List CarOption}
    (hf : fs ≠ []) (hh : hs ≠ []) (hc : cs ≠ []) (hlim : 1 ≤ st.bundleLimit) :
    (computeResponse st r rows mkId sid fs hs cs).bundles ≠ [] := by
  have hne := candidateBundles_ne_nil r (topDeals rows (some r.destination) 5) mkId hf hh hc
  have hlen : 0 < (candidateBundles r (topDeals rows (some r.destination) 5) mkId fs hs cs).length :=
    List.length_pos.mpr hne
  have hlens := (List.perm_insertionSort fitDesc
    (candidateBundles r (topDeals rows (some r.destination) 5) mkId fs hs cs)).length_eq
  show (List.insertionSort fitDesc
    (candidateBundles r (topDeals rows (some r.destination) 5) mkId fs hs cs)).take
      st.bundleLimit ≠ []
  apply List.length_pos.mp
  rw [List.length_take, hlens]
  omega

/-- C10: on a hot-cache miss, `generate` over the fetched inventory (each
fetch yields a non-empty list, substituting the fallback on failure or an
empty upstream result) returns a non-empty bundle list of length at most
`bundle_limit`, with `total_results` equal to the number of bundles. -/
theorem generate_nonempty_bounded (st : Settings) (s0 : Store) (r : BundleRequest)
    (rows : List CachedDeal) (mkId : FlightOption → HotelOption → CarOption → String)
    (sid : String) (uf : Upstream FlightOption) (uh : Upstream HotelOption)
    (uc : Upstream CarOption)
    (hmiss : s0.lookup (cacheKey r) = none) (hlim : 1 ≤ st.bundleLimit) :
    (generate st s0 r rows mkId sid (fetchFlights r uf) (fetchHotels r uh)
        (fetchCars r uc)).1.bundles ≠ []
    ∧ (generate st s0 r rows mkId sid (fetchFlights r uf) (fetchHotels r uh)
        (fetchCars r uc)).1.bundles.length ≤ st.bundleLimit
    ∧ (generate st s0 r rows mkId sid (fetchFlights r uf) (fetchHotels r uh)
        (fetchCars r uc)).1.totalResults
      = (generate st s0 r rows mkId sid (fetchFlights r uf) (fetchHotels r uh)
        (fetchCars r uc)).1.bundles.length := by
  rw [generate_fst_of_miss st s0 r rows mkId sid _ _ _ hmiss]
  refine ⟨?_, ?_, rfl⟩
  · exact computeResponse_bundles_ne_nil st r rows mkId sid
      (fetchFlights_ne_nil r uf) (fetchHotels_ne_nil r uh) (fetchCars_ne_nil r uc) hlim
  · show ((List.insertionSort fitDesc _).take st.bundleLimit).length ≤ st.bundleLimit
    rw [List.length_take]
    exact min_le_left _ _

/-- Witness for C10 at a concrete request with all three upstreams failed
and an empty hot cache. -/
theorem generate_nonempty_bounded_witness :
    (generate ⟨5⟩ [] c1Req [] (fun _ _ _ => "b1") "s2" (fetchFlights c1Req .failed)
        (fetchHotels c1Req .failed) (fetchCars c1Req .failed)).1.bundles ≠ []
    ∧ (generate ⟨5⟩ [] c1Req [] (fun _ _ _ => "b1") "s2" (fetchFlights c1Req .failed)
        (fetchHotels c1Req .failed) (fetchCars c1Req .failed)).1.bundles.length ≤ (5 : ℕ)
    ∧ (generate ⟨5⟩ [] c1Req [] (fun _ _ _ => "b1") "s2" (fetchFlights c1Req .failed)
        (fetchHotels c1Req .failed) (fetchCars c1Req .failed)).1.totalResults
      = (generate ⟨5⟩ [] c1Req [] (fun _ _ _ => "b1") "s2" (fetchFlights c1Req .failed)
        (fetchHotels c1Req .failed) (fetchCars c1Req .failed)).1.bundles.length :=
  generate_nonempty_bounded ⟨5⟩ [] c1Req [] (fun _ _ _ => "b1") "s2"
    .failed .failed .failed rfl (by norm_num)

/-- C5: a failed hotels upstream (all retries exhausted) yields exactly the
deterministic fallback hotel named "Kayak Grand" priced at
`min(0.3 * budget, 280)` per night (hence at most 280), the error is not
propagated, and `generate` still produces at least one bundle whose hotel
component is built from that fallback hotel. -/
theorem hotel_fallback_on_failure (st : Settings) (s0 : Store) (r : BundleRequest)
    (rows : List CachedDeal) (mkId : FlightOption → HotelOption → CarOption → String)
    (sid : String) (uf : Upstream FlightOption) (uc : Upstream CarOption)
    (hmiss : s0.lookup (cacheKey r) = none) (hlim : 1 ≤ st.bundleLimit) :
    fetchHotels r .failed = fallbackHotels r
    ∧ (∃ hfb, fallbackHotels r = [hfb] ∧ hfb.name = "Kayak Grand"
        ∧ hfb.pricePerNight = min (r.budget * (3/10)) 280 ∧ hfb.pricePerNight ≤ 280)
    ∧ (generate st s0 r rows mkId sid (fetchFlights r uf) (fetchHotels r .failed)
        (fetchCars r uc)).1.bundles ≠ []
    ∧ ∀ B ∈ (generate st s0 r rows mkId sid (fetchFlights r uf) (fetchHotels r .failed)
        (fetchCars r uc)).1.bundles,
        ∃ hfb ∈ fallbackHotels r, hotelComponent hfb ∈ B.components := by
  refine ⟨rfl, ⟨_, rfl, rfl, rfl, min_le_right _ _⟩, ?_, ?_⟩
  · rw [generate_fst_of_miss st s0 r rows mkId sid _ _ _ hmiss]
    exact computeResponse_bundles_ne_nil st r rows mkId sid
      (fetchFlights_ne_nil r uf) (fetchHotels_ne_nil r .failed) (fetchCars_ne_nil r uc) hlim
  · intro B hB
    rw [generate_fst_of_miss st s0 r rows mkId sid _ _ _ hmiss] at hB
    have hB1 : B ∈ (List.insertionSort fitDesc
        (candidateBundles r (topDeals rows (some r.destination) 5) mkId
          (fetchFlights r uf) (fetchHotels r .failed) (fetchCars r uc))).take
            st.bundleLimit := hB
    have hB2 := ((List.perm_insertionSort fitDesc _).mem_iff).mp (List.mem_of_mem_take hB1)
    obtain ⟨f, hf, h, hh, c, hc, rfl⟩ := mem_candidateBundles hB2
    refine ⟨h, List.mem_of_mem_take hh, ?_⟩
    simp [mkCandidate, buildComponents]

/-- Witness for C5: hotels upstream failed, empty hot cache, concrete
request. -/
theorem hotel_fallback_on_failure_witness :
    fetchHotels c1Req .failed = fallbackHotels c1Req
    ∧ (generate ⟨5⟩ [] c1Req [] (fun _ _ _ => "b1") "s3" (fetchFlights c1Req .failed)
        (fetchHotels c1Req .failed) (fetchCars c1Req .failed)).1.bundles ≠ [] := by
  have h := hotel_fallback_on_failure ⟨5⟩ [] c1Req [] (fun _ _ _ => "b1") "s3"
    .failed .failed rfl (by norm_num)
  exact ⟨h.1, h.2.2.1⟩

/-- The combined applicability test of the overlay loop: matching
destination and a hotel or flight match, in the loop's test order. -/
def dealApplicable (r : BundleRequest) (flight : FlightOption) (hotel : HotelOption)
    (d : CachedDeal) : Bool :=
  (d.destination == r.destination) && (hotelDealMatch hotel d || flightDealMatch flight d)

theorem topDeals_sorted (rows : List CachedDeal) (dest : Option String) (lim : ℕ) :
    List.Sorted scoreGE (topDeals rows dest lim) :=
  (List.sorted_insertionSort scoreGE (destFiltered rows dest)).sublist (List.take_sublist _ _)

theorem scanDeals_eq_find (r : BundleRequest) (flight : FlightOption) (hotel : HotelOption)
    (deals : List CachedDeal) (hscore : ∀ d ∈ deals, 0 ≤ d.score) :
    scanDeals r flight hotel deals =
      (match deals.find? (dealApplicable r flight hotel) with
        | none => (0, 0, none)
        | some d => (payloadDiscount d, min (d.score / 2) 25,
            some (if hotelDealMatch hotel d then "Hotel deal: " ++ d.summary
              else "Flight deal: " ++ d.summary))) := by
  revert hscore
  induction deals with
  | nil =>
    intro _
    simp [scanDeals, List.find?]
  | cons d rest ih =>
    intro hscore
    have hd0 : 0 ≤ d.score := hscore d (List.mem_cons_self _ _)
    have hrest : ∀ x ∈ rest, 0 ≤ x.score := fun x hx => hscore x (List.mem_cons_of_mem _ hx)
    have hmax : max 0 (min (d.score / 2) 25) = min (d.score / 2) 25 :=
      max_eq_right (le_min (by positivity) (by norm_num))
    by_cases h1 : d.destination = r.destination
    · by_cases h2 : hotelDealMatch hotel d = true
      · have happ : dealApplicable r flight hotel d = true := by
          simp [dealApplicable, h1, h2]
        simp [scanDeals, List.find?_cons, happ, h1, h2, hmax]
      · by_cases h3 : flightDealMatch flight d = true
        · have happ : dealApplicable r flight hotel d = true := by
            simp [dealApplicable, h1, h3]
          simp [scanDeals, List.find?_cons, happ, h1, h2, h3, hmax]
        · have happ : dealApplicable r flight hotel d = false := by
            simp [dealApplicable, h2, h3]
          simp [scanDeals, List.find?_cons, happ, h1, h2, h3, ih hrest]
    · have happ : dealApplicable r flight hotel d = false := by
        simp [dealApplicable, h1]
      simp [scanDeals, List.find?_cons, happ, h1, ih hrest]

/-- C6: the overlay scans the destination's deals (already sorted by score
descending by `top_deals`) and applies at most the first applicable deal:
on a match savings grows by the deal's `price.discount`, the deal bonus is
`min(score/2, 25)` and the explanation becomes "Hotel deal: ..." or
"Flight deal: ..."; with no applicable deal the bonus is 0 and the
explanation stays "Balanced itinerary with matched preferences". -/
theorem deal_overlay_single (r : BundleRequest) (flight : FlightOption) (hotel : HotelOption)
    (rows : List CachedDeal) (bid : String) (car : CarOption)
    (hscore : ∀ d ∈ topDeals rows (some r.destination) 5, 0 ≤ d.score) :
    List.Sorted scoreGE (topDeals rows (some r.destination) 5)
    ∧ scanDeals r flight hotel (topDeals rows (some r.destination) 5) =
        (match (topDeals rows (some r.destination) 5).find? (dealApplicable r flight hotel) with
          | none => (0, 0, none)
          | some d => (payloadDiscount d, min (d.score / 2) 25,
              some (if hotelDealMatch hotel d then "Hotel deal: " ++ d.summary
                else "Flight deal: " ++ d.summary)))
    ∧ ((topDeals rows (some r.destination) 5).find? (dealApplicable r flight hotel) = none →
        (mkCandidate r (topDeals rows (some r.destination) 5) bid flight hotel car).explanation
            = "Balanced itinerary with matched preferences"
          ∧ (scanDeals r flight hotel (topDeals rows (some r.destination) 5)).2.1 = 0) := by
  refine ⟨topDeals_sorted rows (some r.destination) 5,
    scanDeals_eq_find r flight hotel _ hscore, ?_⟩
  intro hnone
  have heq := scanDeals_eq_find r flight hotel (topDeals rows (some r.destination) 5) hscore
  rw [hnone] at heq
  have hexp : (mkCandidate r (topDeals rows (some r.destination) 5) bid flight hotel
      car).explanation
      = (scanDeals r flight hotel (topDeals rows (some r.destination) 5)).2.2.getD
          "Balanced itinerary with matched preferences" := rfl
  rw [hexp, heq]
  exact ⟨rfl, rfl⟩

/-- The cached hotel deal of spec §8 scenario 3: summary "Hotel Test spring
sale", score 60, discount 50 for destination LAX. -/
def c6Deal : CachedDeal :=
  { dealId := "deal-hotel-test", dtype := "hotel", destination := "LAX",
    summary := "Hotel Test spring sale",
    payload := { ptype := some "hotel", priceDiscount := some 50 },
    score := 60, priceValue := 300, inventory := none, validUntil := 99999, updatedAt := 3 }

/-- Witness for C6: on the scenario-3 deal, the overlay picks the hotel
deal for the hotel named "Hotel Test" (case-insensitive substring match of
the name in the deal summary). -/
theorem deal_overlay_single_witness :
    scanDeals c1Req c1Flight c1Hotel (topDeals [c6Deal] (some c1Req.destination) 5) =
      (match (topDeals [c6Deal] (some c1Req.destination) 5).find?
          (dealApplicable c1Req c1Flight c1Hotel) with
        | none => (0, 0, none)
        | some d => (payloadDiscount d, min (d.score / 2) 25,
            some (if hotelDealMatch c1Hotel d then "Hotel deal: " ++ d.summary
              else "Flight deal: " ++ d.summary)))
    ∧ (topDeals [c6Deal] (some c1Req.destination) 5).find?
        (dealApplicable c1Req c1Flight c1Hotel) = some c6Deal := by
  constructor
  · exact (deal_overlay_single c1Req c1Flight c1Hotel [c6Deal] "b3" c1Car (by decide)).2.1
  · decide

/-!
## Watch evaluator (`apps/concierge-svc/app/services/deal_cache.py`
`evaluate_watches`, lines 133-175)

One tick: snapshot active watches, fetch `top_deals()` (no destination
filter, limit 5), group deals by destination (order-preserving), give each
watch the first deal in its bucket within budget, flip the triggered
watches inactive with `last_triggered_at = now`, and emit one `deal_alert`
per triggered pair targeted at the watch owner.
-/

structure Watch where
  id : String
  userId : String
  destination : String
  budgetCeiling : ℚ
  minFitScore : ℚ
  notifyOnInventoryBelow : Option ℤ
  active : Bool
  lastTriggeredAt : Option ℤ
deriving DecidableEq

/-- The `WatchEvent` schema (schemas.py lines 127-135); the `bundle` field
is always `None` here and omitted. -/
structure WatchEvent where
  watchId : String
  userId : String
  destination : String
  message : String
  triggeredAt : ℤ
deriving DecidableEq

/-- The wrapped frame handed to `ws_manager.broadcast` (deal_cache.py lines
171-175): a `type` tag, the target `user_id`, and the event payload. -/
structure WsMessage where
  mtype : String
  target : String
  data : WatchEvent
deriving DecidableEq

/-- The watch's destination bucket of `deal_map` (deal_cache.py lines
142-144): the fetched deals with that destination, in fetch order. -/
def destBucket (deals : List CachedDeal) (dest : String) : List CachedDeal :=
  deals.filter (fun x => x.destination = dest)

/-- Lines 147-151: the first deal in the watch's bucket whose price is
within the budget ceiling. -/
def watchFirstDeal (deals : List CachedDeal) (w : Watch) : Option CachedDeal :=
  (destBucket deals w.destination).find? (fun x => decide (x.priceValue ≤ w.budgetCeiling))

/-- The triggered `(watch, deal)` pairs of one tick, in watch order. -/
def triggeredPairs (watches : List Watch) (deals : List CachedDeal) :
    List (Watch × CachedDeal) :=
  (watches.filter (fun x => x.active)).filterMap
    (fun x => (watchFirstDeal deals x).map (fun dd => (x, dd)))

/-- The `deal_alert` frame for one triggered pair (deal_cache.py lines
163-175), with the Python message `f"Deal {deal_id} now ${price:,.2f}"`
modelled by `formatDollar2`. -/
def mkAlert (now : ℤ) (wd : Watch × CachedDeal) : WsMessage :=
  { mtype := "deal_alert"
    target := wd.1.userId
    data := {
      watchId := wd.1.id
      userId := wd.1.userId
      destination := wd.1.destination
      message := "Deal " ++ wd.2.dealId ++ " now $" ++ formatDollar2 wd.2.priceValue
      triggeredAt := now } }

/-- `evaluate_watches` (deal_cache.py lines 133-175): returns the updated
states of the triggered watches and the emitted frames. -/
def evaluateWatches (watches : List Watch) (rows : List CachedDeal) (now : ℤ) :
    List Watch × List WsMessage :=
  ((triggeredPairs watches (topDeals rows none 5)).map
      (fun wd => { wd.1 with active := false, lastTriggeredAt := some now }),
   (triggeredPairs watches (topDeals rows none 5)).map (mkAlert now))

theorem find?_of_split {α : Type} (p : α → Bool) (l1 l2 : List α) (a : α)
    (hno : ∀ x ∈ l1, p x = false) (ha : p a = true) :
    List.find? p (l1 ++ a :: l2) = some a := by
  induction l1 with
  | nil => simp [List.find?_cons, ha]
  | cons y t ih =>
    have hy := hno y (List.mem_cons_self _ _)
    simp only [List.cons_append, List.find?_cons, hy]
    exact ih (fun x hx => hno x (List.mem_cons_of_mem _ hx))

theorem countP_filterMap_eq_one {α β : Type} (g : α → Option β) (key : α → String)
    (pk : β → String) (hkey : ∀ a b, g a = some b → pk b = key a)
    (l : List α) (w : α)
    (hnd : (l.map key).Nodup) (hw : w ∈ l) (hsome : (g w).isSome) :
    (l.filterMap g).countP (fun b => pk b == key w) = 1 := by
  induction l with
  | nil => cases hw
  | cons a t ih =>
    have hnotin : key a ∉ t.map key := (List.nodup_cons.mp hnd).1
    have hnd' : (t.map key).Nodup := (List.nodup_cons.mp hnd).2
    rcases List.mem_cons.mp hw with rfl | hwt
    · cases hg : g w with
      | none => rw [hg] at hsome; simp at hsome
      | some b =>
        have hpk := hkey w b hg
        have hz : (t.filterMap g).countP (fun bb => pk bb == key w) = 0 := by
          apply List.countP_eq_zero.mpr
          intro bb hbb
          obtain ⟨x, hx, hgx⟩ := List.mem_filterMap.mp hbb
          have hbx := hkey x bb hgx
          simp only [hbx, beq_iff_eq]
          intro heq
          exact hnotin (heq ▸ List.mem_map_of_mem key hx)
        simp [List.filterMap_cons, hg, List.countP_cons, hz, hpk]
    · have hka : key a ≠ key w := by
        intro heq
        exact hnotin (heq ▸ List.mem_map_of_mem key hwt)
      cases hg : g a with
      | none =>
        simp only [List.filterMap_cons, hg]
        exact ih hnd' hwt
      | some b =>
        have hpk := hkey a b hg
        have hfalse : (pk b == key w) = false := by
          simp only [hpk, beq_eq_false_iff_ne]
          exact hka
        have hrec := ih hnd' hwt
        simp [List.filterMap_cons, hg, List.countP_cons, hfalse, hrec]

/-- C3: on a tick, an active watch whose destination bucket has a first
in-budget deal `d` (everything before `d` in the bucket is over budget,
`d` is within budget) fires exactly once: its updated state is inactive
with `last_triggered_at = now`, all updated watches are inactive with the
trigger time set, and exactly one `deal_alert` frame carries its watch id —
that frame targets the watch owner and carries the message
`"Deal " ++ deal_id ++ " now $" ++ price formatted to two decimals`. -/
theorem watch_tick_single_trigger (watches : List Watch) (rows : List CachedDeal) (now : ℤ)
    (w : Watch) (d : CachedDeal) (l1 l2 : List CachedDeal)
    (hnd : (watches.map (fun x => x.id)).Nodup)
    (hw : w ∈ watches) (hact : w.active = true)
    (hsplit : destBucket (topDeals rows none 5) w.destination = l1 ++ d :: l2)
    (hno : ∀ x ∈ l1, ¬(x.priceValue ≤ w.budgetCeiling))
    (hd : d.priceValue ≤ w.budgetCeiling) :
    { w with active := false, lastTriggeredAt := some now } ∈ (evaluateWatches watches rows now).1
    ∧ (∀ u ∈ (evaluateWatches watches rows now).1,
        u.active = false ∧ u.lastTriggeredAt = some now)
    ∧ (evaluateWatches watches rows now).2.countP (fun e => e.data.watchId == w.id) = 1
    ∧ (∀ e ∈ (evaluateWatches watches rows now).2, e.data.watchId = w.id →
        e.mtype = "deal_alert" ∧ e.target = w.userId ∧ e.data.userId = w.userId
        ∧ e.data.message = "Deal " ++ d.dealId ++ " now $" ++ formatDollar2 d.priceValue
        ∧ e.data.triggeredAt = now) := by
  have hfd : watchFirstDeal (topDeals rows none 5) w = some d := by
    unfold watchFirstDeal
    rw [hsplit]
    apply find?_of_split
    · intro x hx
      exact decide_eq_false (hno x hx)
    · exact decide_eq_true hd
  have hwa : w ∈ watches.filter (fun x => x.active) := List.mem_filter.mpr ⟨hw, hact⟩
  have hmemtrig : (w, d) ∈ triggeredPairs watches (topDeals rows none 5) := by
    apply List.mem_filterMap.mpr
    exact ⟨w, hwa, by simp [hfd]⟩
  have hkey : ∀ a b, ((watchFirstDeal (topDeals rows none 5) a).map
      (fun dd => (a, dd))) = some b → b.1.id = a.id := by
    intro a b hab
    obtain ⟨dd, _, rfl⟩ := Option.map_eq_some'.mp hab
    rfl
  have hndf : ((watches.filter (fun x => x.active)).map (fun x => x.id)).Nodup :=
    hnd.sublist ((List.filter_sublist watches).map _)
  refine ⟨?_, ?_, ?_, ?_⟩
  · exact List.mem_map_of_mem _ hmemtrig
  · intro u hu
    obtain ⟨wd, _, rfl⟩ := List.mem_map.mp hu
    exact ⟨rfl, rfl⟩
  · have hmapP : (evaluateWatches watches rows now).2.countP (fun e => e.data.watchId == w.id)
        = (triggeredPairs watches (topDeals rows none 5)).countP
            (fun wd => wd.1.id == w.id) := by
      show ((triggeredPairs watches (topDeals rows none 5)).map (mkAlert now)).countP
          (fun e => e.data.watchId == w.id) = _
      rw [List.countP_map]
      apply List.countP_congr
      intro wd _
      simp [Function.comp, mkAlert]
    rw [hmapP]
    exact countP_filterMap_eq_one
      (fun x => (watchFirstDeal (topDeals rows none 5) x).map (fun dd => (x, dd)))
      (fun x => x.id) (fun wd => wd.1.id) hkey
      (watches.filter (fun x => x.active)) w hndf hwa (by simp [hfd])
  · intro e he hid
    obtain ⟨wd, hwd, rfl⟩ := List.mem_map.mp he
    obtain ⟨x, hx, hgx⟩ := List.mem_filterMap.mp hwd
    obtain ⟨dd, hdd, rfl⟩ := Option.map_eq_some'.mp hgx
    have hid' : x.id = w.id := by simpa [mkAlert] using hid
    have hxw : x = w :=
      List.inj_on_of_nodup_map hnd (List.mem_of_mem_filter hx) hw hid'
    subst hxw
    have hddd : dd = d := by
      rw [hfd] at hdd
      exact (Option.some.inj hdd).symm
    subst hddd
    simp [mkAlert]

/-- Concrete active watch of spec §8 scenario 4 (LAX, ceiling 300). -/
def c3Watch : Watch :=
  { id := "w1", userId := "u1", destination := "LAX", budgetCeiling := 300,
    minFitScore := 60, notifyOnInventoryBelow := some 5, active := true,
    lastTriggeredAt := none }

/-- Concrete cached deal of scenario 4 (LAX, deal price 250, id "d1"). -/
def c3Deal : CachedDeal :=
  { dealId := "d1", dtype := "hotel", destination := "LAX", summary := "LAX hotel",
    payload := { ptype := some "hotel", priceDiscount := some 10 },
    score := 80, priceValue := 250, inventory := none, validUntil := 99999, updatedAt := 5 }

/-- Witness for C3 on scenario 4: the single watch fires once, and the
formatted price in the alert message is "250.00". -/
theorem watch_tick_single_trigger_witness :
    ({ c3Watch with active := false, lastTriggeredAt := some 1234 } : Watch)
        ∈ (evaluateWatches [c3Watch] [c3Deal] 1234).1
    ∧ (evaluateWatches [c3Watch] [c3Deal] 1234).2.countP
        (fun e => e.data.watchId == c3Watch.id) = 1
    ∧ ("Deal " ++ c3Deal.dealId ++ " now $" ++ formatDollar2 c3Deal.priceValue)
        = "Deal d1 now $250.00" := by
  have h := watch_tick_single_trigger [c3Watch] [c3Deal] 1234 c3Watch c3Deal [] []
    (by decide) (by decide) (by decide) (by decide) (by decide) (by decide)
  refine ⟨h.1, h.2.2.1, ?_⟩
  have hr : roundHalfEven ((250 : ℚ) * 100) = 25000 := by norm_num [roundHalfEven]
  show ("Deal " ++ "d1" ++ " now $" ++ formatDollar2 250) = "Deal d1 now $250.00"
  simp [formatDollar2, hr]
  rfl

/-!
## Chat endpoint (`apps/concierge-svc/app/main.py` `chat_with_concierge`,
lines 183-233)

The extracted intent dict as consumed by the endpoint.  `destination` and
`departure_date` are guarded (falsy values produce the error response);
`budget`, `adults`, `children` and the preference keys are always present
in the dict returned by `extract_intent`.
-/

structure ChatIntent where
  destination : Option String
  origin : Option String
  departureDate : Option ℤ
  returnDate : Option ℤ
  budget : ℚ
  adults : ℕ
  children : ℕ
  prefFlightClass : String
  prefHotelStars : Option (List ℤ)
  prefAmenities : Option (List String)
  prefPet : Option Bool
  prefRedEye : Option Bool
deriving DecidableEq

/-- The BundleRequest reconstruction of `chat_with_concierge` (main.py
lines 198-222).  Line 208 reads
`intent.get("return_date") or intent["departure_date"] + timedelta(days=3)`:
datetimes are always truthy, so the extractor's return date is preferred
and the +3-days fallback applies only when it is absent. -/
def chatBundleRequest (intent : ChatIntent) : Option BundleRequest :=
  match intent.destination, intent.departureDate with
  | some dest, some dep =>
    some { origin := intent.origin
           destination := dest
           departureDate := dep
           returnDate := some (intent.returnDate.getD (dep + 3 * 86400))
           budget := intent.budget
           preferences := {
             flightClass := intent.prefFlightClass
             hotelStarRating := intent.prefHotelStars
             amenities := intent.prefAmenities
             petFriendly := intent.prefPet
             avoidRedEye := intent.prefRedEye }
           constraints := {
             adults := intent.adults
             children := intent.children
             rooms := 1 } }
  | _, _ => none

/-- Concrete extracted intent whose extractor-returned return date (day 1)
differs from departure (day 0) + 3 days. -/
def c9Intent : ChatIntent :=
  { destination := some "LAX", origin := none, departureDate := some 0,
    returnDate := some 86400, budget := 1000, adults := 1, children := 0,
    prefFlightClass := "economy", prefHotelStars := none, prefAmenities := none,
    prefPet := none, prefRedEye := none }

/-- Counterexample to C9 as stated: when the extractor returns a return
date (86400), the reconstructed request carries that date, not
departure_date + 3 days (259200) — the code prefers the extracted return
date. -/
theorem chat_return_date_counterexample :
    (chatBundleRequest c9Intent).map (fun req => req.returnDate) = some (some 86400)
    ∧ (some (86400 : ℤ) : Option ℤ) ≠ some (0 + 3 * 86400) := by
  constructor
  · rfl
  · decide

/-- C9 (amended): the reconstructed BundleRequest's return_date is the
extractor's return date whenever one is present, and departure_date +
3 days only when the extractor returns none. -/
theorem chat_return_date (intent : ChatIntent) (dest : String) (dep : ℤ)
    (h1 : intent.destination = some dest) (h2 : intent.departureDate = some dep) :
    ∃ req, chatBundleRequest intent = some req
      ∧ req.returnDate = some (intent.returnDate.getD (dep + 3 * 86400))
      ∧ (∀ t, intent.returnDate = some t → req.returnDate = some t)
      ∧ (intent.returnDate = none → req.returnDate = some (dep + 3 * 86400)) := by
  have hreq : chatBundleRequest intent = some
      { origin := intent.origin
        destination := dest
        departureDate := dep
        returnDate := some (intent.returnDate.getD (dep + 3 * 86400))
        budget := intent.budget
        preferences := {
          flightClass := intent.prefFlightClass
          hotelStarRating := intent.prefHotelStars
          amenities := intent.prefAmenities
          petFriendly := intent.prefPet
          avoidRedEye := intent.prefRedEye }
        constraints := {
          adults := intent.adults
          children := intent.children
          rooms := 1 } } := by
    unfold chatBundleRequest
    rw [h1, h2]
  refine ⟨_, hreq, rfl, ?_, ?_⟩
  · intro t ht
    simp [ht]
  · intro ht
    simp [ht]

/-- Witness for the amended C9 theorem at the concrete intent: the
reconstructed return date is the extractor's (86400 = getD of the present
value), not the +3-days fallback. -/
theorem chat_return_date_witness :
    (chatBundleRequest c9Intent).map (fun req => req.returnDate)
      = some (some (c9Intent.returnDate.getD (0 + 3 * 86400))) := by
  obtain ⟨req, h1, h2, _, _⟩ := chat_return_date c9Intent "LAX" 0 rfl rfl
  simp [h1, h2]
